import Mathlib

/-!
Verification of the core of a time-gated fluorescence-lifetime imaging
program (RLD = rapid lifetime determination).  The program consists of
`RLD_manager.py` (parameter data class, controller protocol encoding,
acquisition loop, configuration parsing, lifetime computation) and
`main.py` (GUI; of interest here: spin-box granularity snapping and
settings serialization).

Conventions of the embedding:
* Python floats are modelled as `ℚ` where the code only does field
  arithmetic and comparisons, and as `ℝ` where `np.log` is involved.
* A NaN ("no data") array cell is modelled as `none : Option ℝ`;
  NaN propagation through arithmetic is explicit in the `nan_*` helpers.
* Config files are modelled at the key/value level (the spec places the
  file-system text mechanics out of scope); values are raw strings and
  numeric parsing models Python `int()` / `float()` on the decimal forms
  the program reads and writes.
* Rational constants that must evaluate inside `decide` are written with
  `Rat.divInt` (exact division), since the Batteries field operations on
  `ℚ` are `@[irreducible]`; `Rat.divInt a b = a / b` throughout.
-/

/-- The `ImagingParameters` dataclass of `RLD_manager.py` (lines 17-27).
Fields in source declaration order; integer fields are `ℤ`, float fields
are `ℚ`. -/
structure ImagingParameters where
  sets_to_acquire : ℤ
  exposure_time_us : ℤ
  delay_window1_us : ℚ
  delay_window2_us : ℚ
  pulse_width_us : ℚ
  exposures_per_frame : ℤ
  end_delay_us : ℤ
  light_intensity : ℤ
  deriving DecidableEq

/-- The dataclass defaults: `ImagingParameters()` in the source
(`sets=3, exposure=20, delay1=2.5, delay2=22.5, pulse=40.0, epf=10,
end_delay=33, light=100`); `Rat.divInt 5 2 = 2.5`,
`Rat.divInt 45 2 = 22.5`. -/
def defaultParams : ImagingParameters :=
  ⟨3, 20, Rat.divInt 5 2, Rat.divInt 45 2, 40, 10, 33, 100⟩

/-! ## Decimal rendering (Python `str`) and parsing (Python `int`/`float`) -/

/-- The decimal digit character for `d < 10`. -/
def digitChar (d : ℕ) : Char := Char.ofNat (48 + d)

/-- Numeric value of a digit character. -/
def digitVal (c : Char) : ℕ := c.toNat - 48

/-- Digits of `n` in base 10, least significant first, with fuel. -/
def natDigitsAux : ℕ → ℕ → List Char
  | _, 0 => []
  | n, f + 1 => if n = 0 then [] else digitChar (n % 10) :: natDigitsAux (n / 10) f

/-- Python `str` of a natural number. -/
def natRepr (n : ℕ) : String :=
  if n = 0 then "0" else ⟨(natDigitsAux n n).reverse⟩

/-- Python `str` of an integer. -/
def intRepr (n : ℤ) : String :=
  if n < 0 then "-" ++ natRepr n.natAbs else natRepr n.natAbs

/-- Decimal digits of the fraction `n / d` (with `0 ≤ n < d`), most
significant first, with fuel; stops when the remainder is exhausted, so
for a terminating decimal this is the exact expansion. -/
def fracDigitsAux (d : ℕ) : ℕ → ℕ → List Char
  | _, 0 => []
  | n, f + 1 =>
    if n = 0 then []
    else digitChar (n * 10 / d) :: fracDigitsAux d (n * 10 % d) f

/-- Python `str` of a float value: sign, integer part, `'.'`, fractional
digits (`"41.75"`, `"40.0"`, `"-1.0"`), computed from the reduced
numerator/denominator.  This matches Python `repr` on floats whose exact
value is a short terminating decimal — the only floats this program
writes. -/
def pyFloatRepr (q : ℚ) : String :=
  (if q.num < 0 then "-" else "") ++ natRepr (q.num.natAbs / q.den) ++ "." ++
    (if q.num.natAbs % q.den = 0 then "0"
     else ⟨fracDigitsAux q.den (q.num.natAbs % q.den) 64⟩)

/-- Accumulate one decimal digit (step function of the string-to-number
fold). -/
def accDigit (acc : ℕ) (c : Char) : ℕ := acc * 10 + digitVal c

/-- Parse a nonempty all-digit character list as a natural number
(the core of Python `int(s)` for unsigned decimal text). -/
def parseNatChars (l : List Char) : Option ℕ :=
  match l with
  | [] => none
  | _ => if l.all (fun c => c.isDigit) then some (l.foldl accDigit 0) else none

/-- Python `int(s)` on the decimal forms this program produces and
consumes: optional leading minus, then digits. -/
def pyParseInt (s : String) : Option ℤ :=
  match s.data with
  | [] => none
  | c :: rest =>
    if c = '-' then (parseNatChars rest).map (fun n => -(n : ℤ))
    else (parseNatChars (c :: rest)).map (fun n => (n : ℤ))

/-- Split a character list at the first `'.'`. -/
def splitAtDot : List Char → List Char × Option (List Char)
  | [] => ([], none)
  | c :: rest =>
    if c = '.' then ([], some rest)
    else
      let p := splitAtDot rest
      (c :: p.1, p.2)

/-- Unsigned part of Python `float(s)`: digits, optionally followed by
`'.'` and more digits; the value of `ip.fp` is
`(ip * 10^|fp| + fp) / 10^|fp|`. -/
def pyParseFloatCore (l : List Char) : Option ℚ :=
  match splitAtDot l with
  | (ip, none) => (parseNatChars ip).map (fun n => (n : ℚ))
  | (ip, some fp) =>
    match parseNatChars ip, parseNatChars fp with
    | some n, some m =>
      some (Rat.divInt ((n : ℤ) * 10 ^ fp.length + (m : ℤ)) (10 ^ fp.length))
    | _, _ => none

/-- Python `float(s)` on the decimal forms this program produces and
consumes: optional leading minus, then digits with an optional point. -/
def pyParseFloat (s : String) : Option ℚ :=
  match s.data with
  | [] => none
  | c :: rest =>
    if c = '-' then (pyParseFloatCore rest).map (fun q => -q)
    else pyParseFloatCore (c :: rest)

/-! ## Configuration files (`load_settings_from_file`, `save_settings`) -/

/-- A parsed settings file at the key/value level: named sections, each a
list of key/value pairs (all values raw strings, as in `configparser`). -/
structure ConfigFile where
  sections : List (String × List (String × String))
  deriving DecidableEq

/-- Section membership test (`'ImagingParameters' in settings`). -/
def ConfigFile.hasSection (c : ConfigFile) (s : String) : Bool :=
  c.sections.any (fun sec => sec.1 == s)

/-- Raw string value of `key` in `sec`, if present. -/
def ConfigFile.get (c : ConfigFile) (sec key : String) : Option String :=
  match c.sections.find? (fun s => s.1 == sec) with
  | none => none
  | some s => (s.2.find? (fun kv => kv.1 == key)).map (fun kv => kv.2)

/-- `settings.getint(sec, key, fallback=fb)`: a missing key yields the
fallback, a present but unparseable value raises `ValueError`
(modelled as `.error ()`). -/
def getint (c : ConfigFile) (sec key : String) (fb : ℤ) : Except Unit ℤ :=
  match c.get sec key with
  | none => .ok fb
  | some v =>
    match pyParseInt v with
    | some n => .ok n
    | none => .error ()

/-- `settings.getfloat(sec, key, fallback=fb)`: same shape as `getint`
with Python `float` parsing. -/
def getfloat (c : ConfigFile) (sec key : String) (fb : ℚ) : Except Unit ℚ :=
  match c.get sec key with
  | none => .ok fb
  | some v =>
    match pyParseFloat v with
    | some q => .ok q
    | none => .error ()

/-- Outcomes of `load_settings_from_file`: `0`, `-1`, `-2`, `None` in the
source. -/
inductive ParseOutcome where
  | success
  | incomplete
  | corrupt
  | notFound
  deriving DecidableEq

/-- The `any(value == -1 for value in vars(params).values())` sentinel
check, over the fields in dataclass declaration order. -/
def hasMissingField (p : ImagingParameters) : Bool :=
  p.sets_to_acquire == -1 || p.exposure_time_us == -1 ||
  p.delay_window1_us == -1 || p.delay_window2_us == -1 ||
  p.pulse_width_us == -1 || p.exposures_per_frame == -1 ||
  p.end_delay_us == -1 || p.light_intensity == -1

/-- The current-schema reads of `load_settings_from_file`
(`RLD_manager.py` lines 179-186), in source order; the first
`ValueError` aborts the block, as in the Python `try`. -/
def readCurrent (c : ConfigFile) : Except Unit ImagingParameters := do
  let e ← getint c "ImagingParameters" "exposure_time_us" (-1)
  let d1 ← getfloat c "ImagingParameters" "delay_window1_us" (-1)
  let d2 ← getfloat c "ImagingParameters" "delay_window2_us" (-1)
  let ed ← getint c "ImagingParameters" "end_delay_us" (-1)
  let pw ← getfloat c "ImagingParameters" "pulse_width_us" (-1)
  let li ← getint c "ImagingParameters" "light_intensity" (-1)
  let st ← getint c "ImagingParameters" "sets_to_acquire" (-1)
  let ef ← getint c "ImagingParameters" "exposures_per_frame" (-1)
  return ⟨st, e, d1, d2, pw, ef, ed, li⟩

/-- The legacy-schema reads (`RLD_manager.py` lines 201-208): all reads
use `getint`, there is no window-1 delay read (that line is commented
out in the source), so `delay_window1_us` keeps the dataclass default
`2.5 = Rat.divInt 5 2`. -/
def readLegacy (c : ConfigFile) : Except Unit ImagingParameters := do
  let e ← getint c "Settings" "exposure_us" (-1)
  let d2 ← getint c "Settings" "delay_window2_us" (-1)
  let ed ← getint c "Settings" "end_delay_us" (-1)
  let pw ← getint c "Settings" "light_pulse_width_us" (-1)
  let li ← getint c "Settings" "light_intensity" (-1)
  let st ← getint c "Settings" "sets_to_acquire" (-1)
  let ef ← getint c "Settings" "exposures_per_frame" (-1)
  return ⟨st, e, Rat.divInt 5 2, (d2 : ℚ), (pw : ℚ), ef, ed, li⟩

/-- `RLD.load_settings_from_file` (`RLD_manager.py` lines 172-218).
`cfg = none` models a missing file (`os.path.exists` false).  Returns
the outcome together with the value of `self.params` after the call
(`current` unless the success path assigns the new parameter set). -/
def load_settings_from_file (cfg : Option ConfigFile)
    (current : ImagingParameters) : ParseOutcome × ImagingParameters :=
  match cfg with
  | none => (.notFound, current)
  | some c =>
    if c.hasSection "ImagingParameters" then
      match readCurrent c with
      | .error _ => (.corrupt, current)
      | .ok params =>
        if hasMissingField params then (.incomplete, current)
        else (.success, params)
    else if c.hasSection "Settings" then
      match readLegacy c with
      | .error _ => (.corrupt, current)
      | .ok params =>
        if hasMissingField params then (.incomplete, current)
        else (.success, params)
    else (.notFound, current)

/-- `MainWindow.save_settings` (`main.py` lines 633-650): a single
`ImagingParameters` section with all eight fields, integers via
`str(int)` and delays/pulse width via `str(float)`. -/
def save_settings (p : ImagingParameters) : ConfigFile :=
  ⟨[("ImagingParameters",
     [("exposure_time_us", intRepr p.exposure_time_us),
      ("delay_window1_us", pyFloatRepr p.delay_window1_us),
      ("delay_window2_us", pyFloatRepr p.delay_window2_us),
      ("end_delay_us", intRepr p.end_delay_us),
      ("pulse_width_us", pyFloatRepr p.pulse_width_us),
      ("light_intensity", intRepr p.light_intensity),
      ("sets_to_acquire", intRepr p.sets_to_acquire),
      ("exposures_per_frame", intRepr p.exposures_per_frame)])]⟩

/-! ## Controller protocol encoding (`init_rld_controller`) -/

/-- The settings command of `RLD.init_rld_controller` (`RLD_manager.py`
lines 116-120), built exactly like the source f-string.  The f-string is
written across two physical lines joined by a backslash line
continuation *inside* the string literal, so the eight spaces of
indentation at the start of the second line are part of the transmitted
command: they precede the `light_intensity` field.  `3/4` is the fixed
`0.75` µs skew. -/
def settings_str (p : ImagingParameters) : String :=
  "R," ++ intRepr p.exposure_time_us ++ "," ++
    pyFloatRepr (p.delay_window1_us - 3/4 + p.pulse_width_us) ++ "," ++
    pyFloatRepr (p.delay_window2_us - 3/4 + p.pulse_width_us) ++ "," ++
    intRepr p.exposures_per_frame ++ "," ++
    "        " ++ intRepr p.light_intensity ++ "," ++
    pyFloatRepr p.pulse_width_us ++ "," ++
    intRepr p.end_delay_us ++ "," ++
    intRepr p.sets_to_acquire ++ "\n"

/-- Modelled from the claim, for comparison with `settings_str`: a
comma-separated command whose fields are *exactly* the opcode and the
rendered parameter values (no stray whitespace), terminated by a
newline. -/
def settings_str_claimed (p : ImagingParameters) : String :=
  String.intercalate ","
    ["R", intRepr p.exposure_time_us,
     pyFloatRepr (p.delay_window1_us - 3/4 + p.pulse_width_us),
     pyFloatRepr (p.delay_window2_us - 3/4 + p.pulse_width_us),
     intRepr p.exposures_per_frame,
     intRepr p.light_intensity,
     pyFloatRepr p.pulse_width_us,
     intRepr p.end_delay_us,
     intRepr p.sets_to_acquire] ++ "\n"

/-- Amended description of the command: as claimed, except that the
`light_intensity` field carries the eight spaces contributed by the
source's line continuation. -/
def settings_str_amended (p : ImagingParameters) : String :=
  String.intercalate ","
    ["R", intRepr p.exposure_time_us,
     pyFloatRepr (p.delay_window1_us - 3/4 + p.pulse_width_us),
     pyFloatRepr (p.delay_window2_us - 3/4 + p.pulse_width_us),
     intRepr p.exposures_per_frame,
     "        " ++ intRepr p.light_intensity,
     pyFloatRepr p.pulse_width_us,
     intRepr p.end_delay_us,
     intRepr p.sets_to_acquire] ++ "\n"

/-! ## Spin-box granularity snapping (`validate_delay1_sb` and friends) -/

/-- Python float `%` for a positive modulus: `a - b * ⌊a / b⌋`. -/
def pymod (a b : ℚ) : ℚ := a - b * ⌊a / b⌋

/-- `MainWindow.validate_delay1_sb` (`main.py` lines 405-412); the
delay-2 and pulse-width validators (lines 414-430) are character-for-
character identical up to the widget they read.  `1/16 = 0.0625` and
`1/32 = 0.03125`. -/
def validate_delay_sb (v : ℚ) : ℚ :=
  let difference := pymod v (1/16)
  if difference > 0 then
    if difference > 1/32 then v + (1/16 - difference)
    else v - difference
  else v

/-! ## Acquisition loop (`acquire_images`) -/

/-- The mutable per-window buffers of an `RLD` object: `image_dict`
(raw frames, here abstracted to their pull index payload) and
`image_start_time_dict` (hardware timestamps), one list per window key. -/
structure RLDBuffers where
  window1_images : List ℕ
  window2_images : List ℕ
  dark_images : List ℕ
  window1_times : List ℕ
  window2_times : List ℕ
  dark_times : List ℕ
  deriving DecidableEq

/-- The empty buffers of a freshly constructed `RLD` object. -/
def RLDBuffers.fresh : RLDBuffers := ⟨[], [], [], [], [], []⟩

/-- One iteration of the acquisition loop body: pull one triggered frame
for each window in the fixed order `window1, window2, dark`, appending
the frame to the image list and its hardware timestamp to the timestamp
list.  `cam k = (frame, timestamp)` is the camera's reply to the `k`-th
`get_image` of this run; iteration `current_set = k` performs pulls
`3k, 3k+1, 3k+2`. -/
def acquireSet (cam : ℕ → ℕ × ℕ) (k : ℕ) (s : RLDBuffers) : RLDBuffers :=
  { s with
    window1_images := s.window1_images ++ [(cam (3 * k)).1]
    window1_times := s.window1_times ++ [(cam (3 * k)).2]
    window2_images := s.window2_images ++ [(cam (3 * k + 1)).1]
    window2_times := s.window2_times ++ [(cam (3 * k + 1)).2]
    dark_images := s.dark_images ++ [(cam (3 * k + 2)).1]
    dark_times := s.dark_times ++ [(cam (3 * k + 2)).2] }

/-- `RLD.acquire_images` (`RLD_manager.py` lines 125-145): clears
`image_dict` ("clear previous images") but *not*
`image_start_time_dict`, then runs `sets_to_acquire` iterations of the
capture loop. -/
def acquire_images (sets : ℕ) (cam : ℕ → ℕ × ℕ) (s : RLDBuffers) :
    RLDBuffers :=
  let s0 := { s with window1_images := [], window2_images := [], dark_images := [] }
  (List.range sets).foldl (fun st k => acquireSet cam k st) s0

/-! ## Lifetime computation (`calculate_lifetime`,
`calculate_average_lifetime`)

Pixel values live in `Option ℝ` with `none` for NaN.  `np.log` maps a
negative argument to NaN; at `0` it yields `-inf`, which the subsequent
zero/negative replacements turn into NaN just as they do the `Real.log
0 = 0` junk value used here, so the composed pipeline agrees with the
NumPy one. -/

/-- `RLD.arr_replace_negatives_by_nan` (lines 260-264), per pixel: NaN
stays NaN (`nan < 0` is false in NumPy, and `none` stays `none` here). -/
noncomputable def arr_replace_negatives_by_nan (x : Option ℝ) : Option ℝ :=
  x.bind fun v => if v < 0 then none else some v

/-- `RLD.arr_replace_zeroes_by_nan` (lines 266-270), per pixel. -/
noncomputable def arr_replace_zeroes_by_nan (x : Option ℝ) : Option ℝ :=
  x.bind fun v => if v = 0 then none else some v

/-- NumPy elementwise division with NaN propagation (the pipeline only
divides after zeroes have been replaced, so `b ≠ 0` at every application
and no infinity arises). -/
noncomputable def nan_div (x y : Option ℝ) : Option ℝ :=
  match x, y with
  | some a, some b => some (a / b)
  | _, _ => none

/-- NumPy elementwise `np.log` with NaN propagation: negative arguments
give NaN. -/
noncomputable def nan_log (x : Option ℝ) : Option ℝ :=
  x.bind fun v => if v < 0 then none else some (Real.log v)

/-- `RLD.calculate_lifetime` (lines 272-274), per pixel:
`delta_t / repl_neg (repl_zero (log (repl_zero w1 / repl_zero w2)))`. -/
noncomputable def calculate_lifetime (delta_t : ℝ) (w1 w2 : Option ℝ) :
    Option ℝ :=
  (arr_replace_negatives_by_nan (arr_replace_zeroes_by_nan
      (nan_log (nan_div (arr_replace_zeroes_by_nan w1)
        (arr_replace_zeroes_by_nan w2))))).map (fun v => delta_t / v)

/-- The three raw image stacks consumed by the reduction; an image is a
pixel-indexed real-valued array. -/
structure ImageStacks where
  window1 : List (ℕ → ℝ)
  window2 : List (ℕ → ℝ)
  dark : List (ℕ → ℝ)

/-- `np.average(stack, axis=0)` per pixel: the mean over however many
frames are present; NumPy's mean of an empty stack is NaN (with a
runtime warning, not an exception). -/
noncomputable def np_average (stack : List (ℕ → ℝ)) (i : ℕ) : Option ℝ :=
  if stack.length = 0 then none
  else some ((stack.map (fun img => img i)).sum / stack.length)

/-- NumPy elementwise subtraction with NaN propagation. -/
noncomputable def nan_sub (x y : Option ℝ) : Option ℝ :=
  match x, y with
  | some a, some b => some (a - b)
  | _, _ => none

/-- `RLD.calculate_average_lifetime` (lines 276-281):
`delta_t = delay2 - delay1`, dark-subtracted window averages, then the
per-pixel lifetime. -/
noncomputable def calculate_average_lifetime (p : ImagingParameters)
    (s : ImageStacks) (i : ℕ) : Option ℝ :=
  let delta_t : ℝ := ((p.delay_window2_us - p.delay_window1_us : ℚ) : ℝ)
  let dark_avg := np_average s.dark i
  let window1_avg := nan_sub (np_average s.window1 i) dark_avg
  let window2_avg := nan_sub (np_average s.window2 i) dark_avg
  calculate_lifetime delta_t window1_avg window2_avg

/-! ## Concrete inputs used by witnesses and counterexamples -/

/-- The eight keys of the current schema. -/
def currentSchemaKeys : List String :=
  ["exposure_time_us", "delay_window1_us", "delay_window2_us", "end_delay_us",
   "pulse_width_us", "light_intensity", "sets_to_acquire", "exposures_per_frame"]

/-- A current-schema file carrying only `exposure_time_us`. -/
def cfgIncompleteExample : ConfigFile :=
  ⟨[("ImagingParameters", [("exposure_time_us", "20")])]⟩

/-- A current-schema file with every key present but `exposure_time_us`
bound to text that does not parse as a number. -/
def cfgBadValue : ConfigFile :=
  ⟨[("ImagingParameters",
     [("exposure_time_us", "abc"), ("delay_window1_us", "2.5"),
      ("delay_window2_us", "22.5"), ("end_delay_us", "33"),
      ("pulse_width_us", "40.0"), ("light_intensity", "100"),
      ("sets_to_acquire", "3"), ("exposures_per_frame", "10")])]⟩

/-- A current-schema file with `delay_window1_us` absent and every other
key present and valid. -/
def cfgMissingOne : ConfigFile :=
  ⟨[("ImagingParameters",
     [("exposure_time_us", "20"), ("delay_window2_us", "22.5"),
      ("end_delay_us", "33"), ("pulse_width_us", "40.0"),
      ("light_intensity", "100"), ("sets_to_acquire", "3"),
      ("exposures_per_frame", "10")])]⟩

/-- A legacy-schema (`Settings`) file with all seven legacy fields and,
in particular, no window-1 delay key of any spelling. -/
def cfgLegacy : ConfigFile :=
  ⟨[("Settings",
     [("exposure_us", "20"), ("delay_window2_us", "22"),
      ("end_delay_us", "33"), ("light_pulse_width_us", "40"),
      ("light_intensity", "100"), ("sets_to_acquire", "3"),
      ("exposures_per_frame", "10")])]⟩

/-- The parameter set parsed from `cfgLegacy`. -/
def legacyParsedParams : ImagingParameters :=
  ⟨3, 20, Rat.divInt 5 2, 22, 40, 10, 33, 100⟩

/-- A parameter set whose `light_intensity` is `-1` — a legitimate
integer, but equal to the loader's missing-value sentinel. -/
def paramsNegOne : ImagingParameters :=
  ⟨3, 20, Rat.divInt 5 2, Rat.divInt 45 2, 40, 10, 33, -1⟩

/-- Stacks of one uniform frame per window with `window1 < window2`
pointwise after dark subtraction (`w1 = 1`, `w2 = 2`, `dark = 0`). -/
noncomputable def invertedStacks : ImageStacks :=
  ⟨[fun _ => 1], [fun _ => 2], [fun _ => 0]⟩

/-- Stacks of one uniform frame per window with a decaying signal
(`w1 = 2`, `w2 = 1`, `dark = 0`). -/
noncomputable def decayStacks : ImageStacks :=
  ⟨[fun _ => 2], [fun _ => 1], [fun _ => 0]⟩

/-- The all-empty image stack (no frames in any window). -/
def emptyStacks : ImageStacks := ⟨[], [], []⟩

/-! ## Digit-level facts about the decimal renderers and parsers -/

theorem digitChar_spec : ∀ d, d < 10 →
    (digitChar d).isDigit = true ∧ digitVal (digitChar d) = d := by decide

theorem natDigitsAux_zero (f : ℕ) : natDigitsAux 0 f = [] := by
  cases f <;> simp [natDigitsAux]

theorem natDigitsAux_spec (f : ℕ) : ∀ n, 0 < n → n < 10 ^ f →
    (∀ c ∈ natDigitsAux n f, c.isDigit = true) ∧
    ∀ a, (natDigitsAux n f).reverse.foldl accDigit a =
      a * 10 ^ (natDigitsAux n f).length + n := by
  induction f with
  | zero => intro n hn hlt; simp at hlt; omega
  | succ f ih =>
    intro n hn hlt
    have hne : n ≠ 0 := Nat.pos_iff_ne_zero.mp hn
    have hdig := digitChar_spec (n % 10) (Nat.mod_lt n (by norm_num))
    rw [natDigitsAux, if_neg hne]
    by_cases hq : n / 10 = 0
    · have hn10 : n < 10 := by omega
      rw [hq, natDigitsAux_zero]
      refine ⟨?_, ?_⟩
      · intro c hc
        simp at hc
        rw [hc]
        exact hdig.1
      · intro a
        simp [accDigit, hdig.2]
        have : n % 10 = n := Nat.mod_eq_of_lt hn10
        omega
    · have hqlt : n / 10 < 10 ^ f := by
        rw [Nat.div_lt_iff_lt_mul (by norm_num)]
        calc n < 10 ^ (f + 1) := hlt
        _ = 10 ^ f * 10 := by ring
      obtain ⟨ihdig, ihfold⟩ := ih (n / 10) (Nat.pos_of_ne_zero hq) hqlt
      refine ⟨?_, ?_⟩
      · intro c hc
        rcases List.mem_cons.mp hc with h | h
        · rw [h]; exact hdig.1
        · exact ihdig c h
      · intro a
        rw [List.reverse_cons, List.foldl_append, ihfold a]
        simp only [List.foldl_cons, List.foldl_nil, accDigit, hdig.2, List.length_cons]
        rw [pow_succ]
        calc (a * 10 ^ (natDigitsAux (n / 10) f).length + n / 10) * 10 + n % 10
            = a * (10 ^ (natDigitsAux (n / 10) f).length * 10) +
                (n / 10 * 10 + n % 10) := by ring
          _ = a * (10 ^ (natDigitsAux (n / 10) f).length * 10) + n := by
                rw [Nat.div_add_mod' n 10]

theorem parseNatChars_natRepr (n : ℕ) :
    parseNatChars (natRepr n).data = some n := by
  by_cases h : n = 0
  · subst h; decide
  · unfold natRepr
    rw [if_neg h]
    have hlt : n < 10 ^ n := Nat.lt_pow_self (by norm_num) n
    obtain ⟨hdig, hfold⟩ := natDigitsAux_spec n n (Nat.pos_of_ne_zero h) hlt
    have hne : natDigitsAux n n ≠ [] := by
      intro he
      have := hfold 0
      rw [he] at this
      simp at this
      omega
    show parseNatChars (natDigitsAux n n).reverse = some n
    cases hl : (natDigitsAux n n).reverse with
    | nil => exact absurd (List.reverse_eq_nil_iff.mp hl) hne
    | cons c t =>
      have hall : (c :: t).all (fun c => c.isDigit) = true := by
        rw [List.all_eq_true]
        intro x hx
        exact hdig x (List.mem_reverse.mp (hl ▸ hx))
      unfold parseNatChars
      rw [if_pos hall]
      have := hfold 0
      rw [hl] at this
      simp at this
      simp [this]

theorem pyParseInt_intRepr (n : ℤ) : pyParseInt (intRepr n) = some n := by
  unfold intRepr
  by_cases h : n < 0
  · rw [if_pos h]
    have hdata : ("-" ++ natRepr n.natAbs).data = '-' :: (natRepr n.natAbs).data := rfl
    unfold pyParseInt
    rw [hdata]
    simp only [if_pos rfl]
    rw [parseNatChars_natRepr]
    show some (-(n.natAbs : ℤ)) = some n
    rw [Int.ofNat_natAbs_of_nonpos (le_of_lt h), neg_neg]
  · rw [if_neg h]
    have hparse := parseNatChars_natRepr n.natAbs
    unfold pyParseInt
    cases hl : (natRepr n.natAbs).data with
    | nil => rw [hl] at hparse; simp [parseNatChars] at hparse
    | cons c t =>
      rw [hl] at hparse
      have hcdig : c.isDigit = true := by
        unfold parseNatChars at hparse
        by_cases hall : (c :: t).all (fun c => c.isDigit) = true
        · exact (List.all_eq_true.mp hall c (List.mem_cons_self c t))
        · rw [if_neg hall] at hparse; exact absurd hparse (by simp)
      have hcne : ¬ (c = '-') := by
        intro he
        rw [he] at hcdig
        exact absurd hcdig (by decide)
      show (if c = '-' then (parseNatChars t).map (fun n => -(n : ℤ))
            else (parseNatChars (c :: t)).map (fun n => (n : ℤ))) = some n
      rw [if_neg hcne, hparse]
      show some ((n.natAbs : ℤ)) = some n
      rw [Int.natAbs_of_nonneg (not_lt.mp h)]

/-! ## C3: the controller settings command -/

theorem settings_str_default_eval :
    settings_str defaultParams = "R,20,41.75,61.75,10,        100,40.0,33,3\n" := by
  have h1 : (defaultParams.delay_window1_us - 3/4 + defaultParams.pulse_width_us : ℚ)
      = Rat.divInt 167 4 := by
    show (Rat.divInt 5 2 - 3/4 + 40 : ℚ) = Rat.divInt 167 4
    rw [Rat.divInt_eq_div, Rat.divInt_eq_div]
    norm_num
  have h2 : (defaultParams.delay_window2_us - 3/4 + defaultParams.pulse_width_us : ℚ)
      = Rat.divInt 247 4 := by
    show (Rat.divInt 45 2 - 3/4 + 40 : ℚ) = Rat.divInt 247 4
    rw [Rat.divInt_eq_div, Rat.divInt_eq_div]
    norm_num
  unfold settings_str
  rw [h1, h2]
  decide

theorem settings_str_claimed_default_eval :
    settings_str_claimed defaultParams = "R,20,41.75,61.75,10,100,40.0,33,3\n" := by
  have h1 : (defaultParams.delay_window1_us - 3/4 + defaultParams.pulse_width_us : ℚ)
      = Rat.divInt 167 4 := by
    show (Rat.divInt 5 2 - 3/4 + 40 : ℚ) = Rat.divInt 167 4
    rw [Rat.divInt_eq_div, Rat.divInt_eq_div]
    norm_num
  have h2 : (defaultParams.delay_window2_us - 3/4 + defaultParams.pulse_width_us : ℚ)
      = Rat.divInt 247 4 := by
    show (Rat.divInt 45 2 - 3/4 + 40 : ℚ) = Rat.divInt 247 4
    rw [Rat.divInt_eq_div, Rat.divInt_eq_div]
    norm_num
  unfold settings_str_claimed
  rw [h1, h2]
  decide

/-- C3, counterexample: at the default parameter values (which are
exactly the claim's concrete scenario), the transmitted command is not
the clean comma-separated rendering the claim describes — the
`light_intensity` field is `"        100"`, carrying the eight spaces of
the f-string's backslash line continuation, not `"100"`. -/
theorem c3_counterexample :
    settings_str defaultParams ≠ settings_str_claimed defaultParams ∧
    settings_str defaultParams = "R,20,41.75,61.75,10,        100,40.0,33,3\n" := by
  refine ⟨?_, settings_str_default_eval⟩
  rw [settings_str_default_eval, settings_str_claimed_default_eval]
  decide

/-- C3, amended: for every parameter set the command is the
comma-separated sequence opcode, `exposure_time_us`,
`delay_window1_us + pulse_width_us - 0.75`,
`delay_window2_us + pulse_width_us - 0.75`, `exposures_per_frame`,
eight spaces followed by `light_intensity`, `pulse_width_us`,
`end_delay_us`, `sets_to_acquire`, terminated by a newline; at the
claim's concrete scenario the two delay fields render as `41.75` and
`61.75`. -/
theorem c3_settings_command_amended :
    (∀ p : ImagingParameters, settings_str p = settings_str_amended p) ∧
    settings_str defaultParams = "R,20,41.75,61.75,10,        100,40.0,33,3\n" := by
  refine ⟨fun p => ?_, settings_str_default_eval⟩
  apply String.ext
  simp [settings_str, settings_str_amended, String.intercalate, String.intercalate.go]

/-! ## Facts about the configuration loader -/

theorem readCurrent_ok_fields {c : ConfigFile} {p : ImagingParameters}
    (h : readCurrent c = .ok p) :
    getint c "ImagingParameters" "exposure_time_us" (-1) = .ok p.exposure_time_us ∧
    getfloat c "ImagingParameters" "delay_window1_us" (-1) = .ok p.delay_window1_us ∧
    getfloat c "ImagingParameters" "delay_window2_us" (-1) = .ok p.delay_window2_us ∧
    getint c "ImagingParameters" "end_delay_us" (-1) = .ok p.end_delay_us ∧
    getfloat c "ImagingParameters" "pulse_width_us" (-1) = .ok p.pulse_width_us ∧
    getint c "ImagingParameters" "light_intensity" (-1) = .ok p.light_intensity ∧
    getint c "ImagingParameters" "sets_to_acquire" (-1) = .ok p.sets_to_acquire ∧
    getint c "ImagingParameters" "exposures_per_frame" (-1) = .ok p.exposures_per_frame := by
  unfold readCurrent at h
  cases h1 : getint c "ImagingParameters" "exposure_time_us" (-1) <;> rw [h1] at h
  case error => exact Except.noConfusion h
  cases h2 : getfloat c "ImagingParameters" "delay_window1_us" (-1) <;> rw [h2] at h
  case error => exact Except.noConfusion h
  cases h3 : getfloat c "ImagingParameters" "delay_window2_us" (-1) <;> rw [h3] at h
  case error => exact Except.noConfusion h
  cases h4 : getint c "ImagingParameters" "end_delay_us" (-1) <;> rw [h4] at h
  case error => exact Except.noConfusion h
  cases h5 : getfloat c "ImagingParameters" "pulse_width_us" (-1) <;> rw [h5] at h
  case error => exact Except.noConfusion h
  cases h6 : getint c "ImagingParameters" "light_intensity" (-1) <;> rw [h6] at h
  case error => exact Except.noConfusion h
  cases h7 : getint c "ImagingParameters" "sets_to_acquire" (-1) <;> rw [h7] at h
  case error => exact Except.noConfusion h
  cases h8 : getint c "ImagingParameters" "exposures_per_frame" (-1) <;> rw [h8] at h
  case error => exact Except.noConfusion h
  injection h with h9
  subst h9
  exact ⟨rfl, rfl, rfl, rfl, rfl, rfl, rfl, rfl⟩

theorem readLegacy_ok_delay1 {c : ConfigFile} {p : ImagingParameters}
    (h : readLegacy c = .ok p) : p.delay_window1_us = Rat.divInt 5 2 := by
  unfold readLegacy at h
  cases h1 : getint c "Settings" "exposure_us" (-1) <;> rw [h1] at h
  case error => exact Except.noConfusion h
  cases h2 : getint c "Settings" "delay_window2_us" (-1) <;> rw [h2] at h
  case error => exact Except.noConfusion h
  cases h3 : getint c "Settings" "end_delay_us" (-1) <;> rw [h3] at h
  case error => exact Except.noConfusion h
  cases h4 : getint c "Settings" "light_pulse_width_us" (-1) <;> rw [h4] at h
  case error => exact Except.noConfusion h
  cases h5 : getint c "Settings" "light_intensity" (-1) <;> rw [h5] at h
  case error => exact Except.noConfusion h
  cases h6 : getint c "Settings" "sets_to_acquire" (-1) <;> rw [h6] at h
  case error => exact Except.noConfusion h
  cases h7 : getint c "Settings" "exposures_per_frame" (-1) <;> rw [h7] at h
  case error => exact Except.noConfusion h
  injection h with h9
  subst h9
  rfl

theorem load_settings_fst_or_snd (cfg : Option ConfigFile)
    (current : ImagingParameters) :
    (load_settings_from_file cfg current).1 = .success ∨
    (load_settings_from_file cfg current).2 = current := by
  rcases cfg with _ | c
  · right; rfl
  · unfold load_settings_from_file
    cases h1 : c.hasSection "ImagingParameters"
    · cases h2 : c.hasSection "Settings"
      · simp [h1, h2]
      · simp only [h1, h2, Bool.false_eq_true, if_false, if_true]
        cases hr : readLegacy c with
        | error u => right; rfl
        | ok params => cases hm : hasMissingField params <;> simp [hm]
    · simp only [h1, if_true]
      cases hr : readCurrent c with
      | error u => right; rfl
      | ok params => cases hm : hasMissingField params <;> simp [hm]

/-! ## C5: failed parses leave the caller's parameters untouched -/

/-- C5: for every configuration file whose parse outcome is `Incomplete`
or `Corrupt`, the caller's existing parameter set is exactly unchanged
after the call — `self.params` is only assigned on the success path. -/
theorem c5_params_unchanged (cfg : Option ConfigFile)
    (current : ImagingParameters)
    (h : (load_settings_from_file cfg current).1 = .incomplete ∨
         (load_settings_from_file cfg current).1 = .corrupt) :
    (load_settings_from_file cfg current).2 = current := by
  rcases load_settings_fst_or_snd cfg current with hs | hu
  · rcases h with h | h <;> rw [hs] at h <;> exact absurd h (by decide)
  · exact hu

theorem c5_params_unchanged_witness :
    (load_settings_from_file (some cfgIncompleteExample) defaultParams).1
      = .incomplete ∧
    (load_settings_from_file (some cfgIncompleteExample) defaultParams).2
      = defaultParams :=
  ⟨by decide,
   c5_params_unchanged (some cfgIncompleteExample) defaultParams
     (Or.inl (by decide))⟩

/-! ## C6: which parse failures count as Incomplete vs Corrupt -/

/-- C6, counterexample: a current-schema file whose `exposure_time_us`
is present but unparseable (`"abc"`) yields the `Corrupt` outcome (the
source's `-2`, from the caught `ValueError`), not `Incomplete` as the
claim states. -/
theorem c6_counterexample :
    (load_settings_from_file (some cfgBadValue) defaultParams).1 = .corrupt ∧
    ParseOutcome.corrupt ≠ ParseOutcome.incomplete := by decide

/-- C6, amended: with the current-schema section present, a field whose
key is absent is read as the sentinel `-1` and (provided every present
field parses) produces `Incomplete`; a field present but unparseable as
a number raises `ValueError` and produces `Corrupt`.  The sentinel thus
marks absent keys, while invalid present keys abort the read. -/
theorem c6_parse_outcomes_amended :
    (∀ (c : ConfigFile) (cur p : ImagingParameters),
      c.hasSection "ImagingParameters" = true →
      readCurrent c = .ok p →
      (∃ k ∈ currentSchemaKeys, c.get "ImagingParameters" k = none) →
      load_settings_from_file (some c) cur = (.incomplete, cur)) ∧
    (∀ (c : ConfigFile) (cur : ImagingParameters),
      c.hasSection "ImagingParameters" = true →
      readCurrent c = .error () →
      load_settings_from_file (some c) cur = (.corrupt, cur)) := by
  constructor
  · intro c cur p hsec hok hk
    obtain ⟨hf1, hf2, hf3, hf4, hf5, hf6, hf7, hf8⟩ := readCurrent_ok_fields hok
    obtain ⟨k, hkmem, hknone⟩ := hk
    have hmiss : hasMissingField p = true := by
      simp only [currentSchemaKeys, List.mem_cons, List.not_mem_nil, or_false] at hkmem
      rcases hkmem with rfl | rfl | rfl | rfl | rfl | rfl | rfl | rfl
      · rw [getint, hknone] at hf1
        injection hf1 with hv
        simp [hasMissingField, hv.symm]
      · rw [getfloat, hknone] at hf2
        injection hf2 with hv
        simp [hasMissingField, hv.symm]
      · rw [getfloat, hknone] at hf3
        injection hf3 with hv
        simp [hasMissingField, hv.symm]
      · rw [getint, hknone] at hf4
        injection hf4 with hv
        simp [hasMissingField, hv.symm]
      · rw [getfloat, hknone] at hf5
        injection hf5 with hv
        simp [hasMissingField, hv.symm]
      · rw [getint, hknone] at hf6
        injection hf6 with hv
        simp [hasMissingField, hv.symm]
      · rw [getint, hknone] at hf7
        injection hf7 with hv
        simp [hasMissingField, hv.symm]
      · rw [getint, hknone] at hf8
        injection hf8 with hv
        simp [hasMissingField, hv.symm]
    simp [load_settings_from_file, hsec, hok, hmiss]
  · intro c cur hsec herr
    simp [load_settings_from_file, hsec, herr]

theorem c6_parse_outcomes_amended_witness :
    load_settings_from_file (some cfgMissingOne) defaultParams
      = (.incomplete, defaultParams) ∧
    load_settings_from_file (some cfgBadValue) defaultParams
      = (.corrupt, defaultParams) := by
  constructor
  · exact c6_parse_outcomes_amended.1 cfgMissingOne defaultParams
      ⟨3, 20, -1, Rat.divInt 45 2, 40, 10, 33, 100⟩ (by decide) rfl
      ⟨"delay_window1_us", by decide, by decide⟩
  · exact c6_parse_outcomes_amended.2 cfgBadValue defaultParams
      (by decide) rfl

/-! ## C10: the legacy schema never reads a window-1 delay -/

/-- C10: for every settings file without the current-schema section, a
`Success` outcome installs a parameter set whose `delay_window1_us` is
the built-in default `2.5` µs regardless of the file's contents — the
legacy branch never reads a window-1 delay field — and the absence of
that field never by itself prevents `Success`. -/
theorem c10_legacy_delay1_default (c : ConfigFile)
    (cur newp : ImagingParameters)
    (hsec : c.hasSection "ImagingParameters" = false)
    (h : load_settings_from_file (some c) cur = (.success, newp)) :
    newp.delay_window1_us = Rat.divInt 5 2 := by
  cases h2 : c.hasSection "Settings"
  · simp [load_settings_from_file, hsec, h2] at h
  · cases hr : readLegacy c with
    | error u => simp [load_settings_from_file, hsec, h2, hr] at h
    | ok params =>
      cases hm : hasMissingField params
      · simp [load_settings_from_file, hsec, h2, hr, hm] at h
        rw [← h]
        exact readLegacy_ok_delay1 hr
      · simp [load_settings_from_file, hsec, h2, hr, hm] at h

theorem c10_legacy_delay1_default_witness :
    load_settings_from_file (some cfgLegacy) defaultParams
      = (.success, legacyParsedParams) ∧
    legacyParsedParams.delay_window1_us = Rat.divInt 5 2 :=
  ⟨by decide,
   c10_legacy_delay1_default cfgLegacy defaultParams legacyParsedParams
     (by decide) (by decide)⟩

/-! ## C8: save/parse round trip -/

/-- C8, counterexample: the parameter set `paramsNegOne`
(`light_intensity = -1`, every field representable in the file's decimal
text) serializes and parses back to the `Incomplete` outcome, not
`Success`, because the stored `-1` collides with the loader's
missing-value sentinel and the caller's parameters are left unchanged. -/
theorem c8_counterexample :
    load_settings_from_file (some (save_settings paramsNegOne)) defaultParams
      = (.incomplete, defaultParams) ∧
    ParseOutcome.incomplete ≠ ParseOutcome.success := by
  exact ⟨by decide, by decide⟩

/-- C8, amended: for every `ImagingParameters` none of whose fields
equals the sentinel `-1` and whose three float fields render/parse
exactly (the claim's "representable in the file's decimal text format"),
serializing with `save_settings` and parsing back yields `Success` with
a parameter set equal to the original. -/
theorem c8_roundtrip_amended (p cur : ImagingParameters)
    (h1 : p.sets_to_acquire ≠ -1) (h2 : p.exposure_time_us ≠ -1)
    (h3 : p.delay_window1_us ≠ -1) (h4 : p.delay_window2_us ≠ -1)
    (h5 : p.pulse_width_us ≠ -1) (h6 : p.exposures_per_frame ≠ -1)
    (h7 : p.end_delay_us ≠ -1) (h8 : p.light_intensity ≠ -1)
    (hf1 : pyParseFloat (pyFloatRepr p.delay_window1_us) = some p.delay_window1_us)
    (hf2 : pyParseFloat (pyFloatRepr p.delay_window2_us) = some p.delay_window2_us)
    (hf3 : pyParseFloat (pyFloatRepr p.pulse_width_us) = some p.pulse_width_us) :
    load_settings_from_file (some (save_settings p)) cur = (.success, p) := by
  have g1 : getint (save_settings p) "ImagingParameters" "exposure_time_us" (-1)
      = .ok p.exposure_time_us := by
    have hg : (save_settings p).get "ImagingParameters" "exposure_time_us"
        = some (intRepr p.exposure_time_us) := rfl
    simp [getint, hg, pyParseInt_intRepr]
  have g2 : getfloat (save_settings p) "ImagingParameters" "delay_window1_us" (-1)
      = .ok p.delay_window1_us := by
    have hg : (save_settings p).get "ImagingParameters" "delay_window1_us"
        = some (pyFloatRepr p.delay_window1_us) := rfl
    simp [getfloat, hg, hf1]
  have g3 : getfloat (save_settings p) "ImagingParameters" "delay_window2_us" (-1)
      = .ok p.delay_window2_us := by
    have hg : (save_settings p).get "ImagingParameters" "delay_window2_us"
        = some (pyFloatRepr p.delay_window2_us) := rfl
    simp [getfloat, hg, hf2]
  have g4 : getint (save_settings p) "ImagingParameters" "end_delay_us" (-1)
      = .ok p.end_delay_us := by
    have hg : (save_settings p).get "ImagingParameters" "end_delay_us"
        = some (intRepr p.end_delay_us) := rfl
    simp [getint, hg, pyParseInt_intRepr]
  have g5 : getfloat (save_settings p) "ImagingParameters" "pulse_width_us" (-1)
      = .ok p.pulse_width_us := by
    have hg : (save_settings p).get "ImagingParameters" "pulse_width_us"
        = some (pyFloatRepr p.pulse_width_us) := rfl
    simp [getfloat, hg, hf3]
  have g6 : getint (save_settings p) "ImagingParameters" "light_intensity" (-1)
      = .ok p.light_intensity := by
    have hg : (save_settings p).get "ImagingParameters" "light_intensity"
        = some (intRepr p.light_intensity) := rfl
    simp [getint, hg, pyParseInt_intRepr]
  have g7 : getint (save_settings p) "ImagingParameters" "sets_to_acquire" (-1)
      = .ok p.sets_to_acquire := by
    have hg : (save_settings p).get "ImagingParameters" "sets_to_acquire"
        = some (intRepr p.sets_to_acquire) := rfl
    simp [getint, hg, pyParseInt_intRepr]
  have g8 : getint (save_settings p) "ImagingParameters" "exposures_per_frame" (-1)
      = .ok p.exposures_per_frame := by
    have hg : (save_settings p).get "ImagingParameters" "exposures_per_frame"
        = some (intRepr p.exposures_per_frame) := rfl
    simp [getint, hg, pyParseInt_intRepr]
  have hread : readCurrent (save_settings p) = .ok p := by
    unfold readCurrent
    rw [g1, g2, g3, g4, g5, g6, g7, g8]
    rfl
  have hmiss : hasMissingField p = false := by
    simp [hasMissingField, h1, h2, h3, h4, h5, h6, h7, h8]
  have hsec : (save_settings p).hasSection "ImagingParameters" = true := rfl
  simp [load_settings_from_file, hsec, hread, hmiss]

theorem c8_roundtrip_amended_witness :
    load_settings_from_file (some (save_settings defaultParams)) defaultParams
      = (.success, defaultParams) :=
  c8_roundtrip_amended defaultParams defaultParams (by decide) (by decide)
    (by decide) (by decide) (by decide) (by decide) (by decide) (by decide)
    (by decide) (by decide) (by decide)

/-! ## C7: granularity snapping of the delay/pulse-width spin boxes -/

/-- C7, counterexample: `3/32 = 0.09375` µs lies exactly halfway between
the multiples `0.0625` and `0.125` (its remainder modulo `1/16` is
`1/32`), and the validator rounds it DOWN to `0.0625`, not up to the
larger multiple `0.125` as the claim states. -/
theorem c7_counterexample :
    pymod (3/32) (1/16) = 1/32 ∧
    validate_delay_sb (3/32) = 1/16 ∧
    (1/16 : ℚ) ≠ 1/8 := by
  have hfloor : ⌊(3/32 : ℚ) / (1/16)⌋ = 1 := by
    rw [show (3/32 : ℚ) / (1/16) = 3/2 by norm_num, Int.floor_eq_iff]
    norm_num
  have hm : pymod (3/32) (1/16) = 1/32 := by
    rw [pymod, hfloor]
    norm_num
  refine ⟨hm, ?_, by norm_num⟩
  simp only [validate_delay_sb, hm]
  rw [if_pos (by norm_num), if_neg (by norm_num)]
  norm_num

/-- C7, amended: the validators snap each value to the nearest multiple
of `0.0625` µs (the snapped value is a multiple of `1/16`, at distance
at most `1/32`, and strictly nearest away from ties), but a value lying
exactly halfway between two multiples is rounded DOWN to the smaller
multiple, not up. -/
theorem c7_snap_amended (v : ℚ) :
    (∃ k : ℤ, validate_delay_sb v = k / 16) ∧
    |v - validate_delay_sb v| ≤ 1/32 ∧
    (pymod v (1/16) = 1/32 → validate_delay_sb v = v - 1/32) ∧
    (pymod v (1/16) ≠ 1/32 → |v - validate_delay_sb v| < 1/32) := by
  have harg : v / (1/16 : ℚ) = 16 * v := by ring
  have hrep : pymod v (1/16) = v - (1/16) * ⌊16 * v⌋ := by
    rw [pymod, harg]
  have hfl := Int.floor_le (16 * v)
  have hfu := Int.lt_floor_add_one (16 * v)
  have hd0 : 0 ≤ pymod v (1/16) := by rw [hrep]; linarith
  have hd1 : pymod v (1/16) < 1/16 := by rw [hrep]; push_cast at hfu ⊢; linarith
  have hveq : v - pymod v (1/16) = (⌊16 * v⌋ : ℚ) / 16 := by rw [hrep]; ring
  simp only [validate_delay_sb]
  by_cases hpos : pymod v (1/16) > 0
  · rw [if_pos hpos]
    by_cases hhalf : pymod v (1/16) > 1/32
    · rw [if_pos hhalf]
      have habs : v - (v + (1/16 - pymod v (1/16))) = pymod v (1/16) - 1/16 := by
        ring
      refine ⟨⟨⌊16 * v⌋ + 1, ?_⟩, ?_, ?_, ?_⟩
      · push_cast
        have := hveq
        linarith
      · rw [habs, abs_of_nonpos (by linarith)]
        linarith
      · intro htie
        exact absurd htie (by intro he; rw [he] at hhalf; exact absurd hhalf (by norm_num))
      · intro _
        rw [habs, abs_of_nonpos (by linarith)]
        linarith
    · rw [if_neg hhalf]
      have hle : pymod v (1/16) ≤ 1/32 := not_lt.mp hhalf
      have habs : v - (v - pymod v (1/16)) = pymod v (1/16) := by ring
      refine ⟨⟨⌊16 * v⌋, hveq⟩, ?_, ?_, ?_⟩
      · rw [habs, abs_of_nonneg hd0]
        exact hle
      · intro htie
        rw [htie]
      · intro hne
        rw [habs, abs_of_nonneg hd0]
        exact lt_of_le_of_ne hle hne
  · rw [if_neg hpos]
    have hdz : pymod v (1/16) = 0 := le_antisymm (not_lt.mp hpos) hd0
    refine ⟨⟨⌊16 * v⌋, ?_⟩, ?_, ?_, ?_⟩
    · have := hveq
      rw [hdz] at this
      linarith
    · rw [sub_self, abs_zero]
      norm_num
    · intro htie
      rw [hdz] at htie
      exact absurd htie (by norm_num)
    · intro _
      rw [sub_self, abs_zero]
      norm_num

theorem c7_snap_amended_witness :
    validate_delay_sb (3/32) = 3/32 - 1/32 ∧
    |(1/10 : ℚ) - validate_delay_sb (1/10)| < 1/32 := by
  constructor
  · refine (c7_snap_amended (3/32)).2.2.1 ?_
    have hfloor : ⌊(3/32 : ℚ) / (1/16)⌋ = 1 := by
      rw [show (3/32 : ℚ) / (1/16) = 3/2 by norm_num, Int.floor_eq_iff]
      norm_num
    rw [pymod, hfloor]
    norm_num
  · refine (c7_snap_amended (1/10)).2.2.2 ?_
    have hfloor : ⌊(1/10 : ℚ) / (1/16)⌋ = 1 := by
      rw [show (1/10 : ℚ) / (1/16) = 8/5 by norm_num, Int.floor_eq_iff]
      norm_num
    rw [pymod, hfloor]
    norm_num

/-! ## C9: acquisition buffer lengths -/

theorem foldl_acquireSet_lengths (cam : ℕ → ℕ × ℕ) (l : List ℕ) (s : RLDBuffers) :
    ((l.foldl (fun st k => acquireSet cam k st) s).window1_images.length
        = s.window1_images.length + l.length) ∧
    ((l.foldl (fun st k => acquireSet cam k st) s).window2_images.length
        = s.window2_images.length + l.length) ∧
    ((l.foldl (fun st k => acquireSet cam k st) s).dark_images.length
        = s.dark_images.length + l.length) ∧
    ((l.foldl (fun st k => acquireSet cam k st) s).window1_times.length
        = s.window1_times.length + l.length) ∧
    ((l.foldl (fun st k => acquireSet cam k st) s).window2_times.length
        = s.window2_times.length + l.length) ∧
    ((l.foldl (fun st k => acquireSet cam k st) s).dark_times.length
        = s.dark_times.length + l.length) := by
  induction l generalizing s with
  | nil => simp
  | cons a t ih =>
    simp only [List.foldl_cons, List.length_cons]
    obtain ⟨i1, i2, i3, t1, t2, t3⟩ := ih (acquireSet cam a s)
    refine ⟨?_, ?_, ?_, ?_, ?_, ?_⟩
    · rw [i1]; simp [acquireSet]; omega
    · rw [i2]; simp [acquireSet]; omega
    · rw [i3]; simp [acquireSet]; omega
    · rw [t1]; simp [acquireSet]; omega
    · rw [t2]; simp [acquireSet]; omega
    · rw [t3]; simp [acquireSet]; omega

/-- C9, amended: after every run of `acquire_images`, the three image
sequences each have length `sets_to_acquire` (they are cleared at the
start of the run), and each run appends exactly one timestamp per pulled
frame to each window's timestamp sequence — but the timestamp sequences
are never cleared, so their length is the pre-run length plus
`sets_to_acquire`, which equals the image-sequence length only on a
fresh object's first run. -/
theorem c9_lengths_amended (sets : ℕ) (cam : ℕ → ℕ × ℕ) (s : RLDBuffers) :
    (acquire_images sets cam s).window1_images.length = sets ∧
    (acquire_images sets cam s).window2_images.length = sets ∧
    (acquire_images sets cam s).dark_images.length = sets ∧
    (acquire_images sets cam s).window1_times.length
      = s.window1_times.length + sets ∧
    (acquire_images sets cam s).window2_times.length
      = s.window2_times.length + sets ∧
    (acquire_images sets cam s).dark_times.length
      = s.dark_times.length + sets := by
  unfold acquire_images
  obtain ⟨i1, i2, i3, t1, t2, t3⟩ :=
    foldl_acquireSet_lengths cam (List.range sets)
      { s with window1_images := [], window2_images := [], dark_images := [] }
  rw [List.length_range] at i1 i2 i3 t1 t2 t3
  exact ⟨by rw [i1]; simp, by rw [i2]; simp, by rw [i3]; simp,
         by rw [t1], by rw [t2], by rw [t3]⟩

/-- C9, counterexample: running `acquire_images` twice on the same
object (one set each run) leaves `window1` with 1 image but 2
timestamps — the timestamp sequence is not the same length as the image
sequence, contradicting the claim for repeated runs. -/
theorem c9_counterexample :
    (acquire_images 1 (fun n => (n, n))
      (acquire_images 1 (fun n => (n, n)) RLDBuffers.fresh)).window1_images.length
        = 1 ∧
    (acquire_images 1 (fun n => (n, n))
      (acquire_images 1 (fun n => (n, n)) RLDBuffers.fresh)).window1_times.length
        = 2 ∧
    (1 : ℕ) ≠ 2 := by decide

/-! ## Evaluation facts for the NaN pipeline -/

theorem rz_some (v : ℝ) :
    arr_replace_zeroes_by_nan (some v) = if v = 0 then none else some v := rfl

theorem rz_none : arr_replace_zeroes_by_nan none = none := rfl

theorem rn_some (v : ℝ) :
    arr_replace_negatives_by_nan (some v) = if v < 0 then none else some v := rfl

theorem rn_none : arr_replace_negatives_by_nan none = none := rfl

theorem nl_some (v : ℝ) :
    nan_log (some v) = if v < 0 then none else some (Real.log v) := rfl

theorem nl_none : nan_log none = none := rfl

theorem nd_some (a b : ℝ) : nan_div (some a) (some b) = some (a / b) := rfl

theorem nd_none_left (y : Option ℝ) : nan_div none y = none := by
  cases y <;> rfl

theorem nd_none_right (x : Option ℝ) : nan_div x none = none := by
  cases x <;> rfl

/-- The per-pixel lifetime at a non-degenerate decaying pixel
(`0 < b < a`, so the ratio exceeds 1 and its log is positive). -/
theorem calculate_lifetime_pos (delta_t a b : ℝ) (hb : 0 < b) (hba : b < a) :
    calculate_lifetime delta_t (some a) (some b)
      = some (delta_t / Real.log (a / b)) := by
  have ha0 : a ≠ 0 := ne_of_gt (lt_trans hb hba)
  have hb0 : b ≠ 0 := ne_of_gt hb
  have hratio : (1 : ℝ) < a / b := (one_lt_div hb).mpr hba
  have hlog : 0 < Real.log (a / b) := Real.log_pos hratio
  unfold calculate_lifetime
  rw [rz_some, rz_some, if_neg ha0, if_neg hb0, nd_some, nl_some,
    if_neg (not_lt.mpr (le_of_lt (lt_trans one_pos hratio))), rz_some,
    if_neg (ne_of_gt hlog), rn_some, if_neg (not_lt.mpr (le_of_lt hlog))]
  rfl

/-- The per-pixel lifetime is the NaN sentinel whenever the window-2
value is zero, the ratio is zero, or the log-ratio is non-positive. -/
theorem calculate_lifetime_degenerate (delta_t a b : ℝ)
    (h : b = 0 ∨ a / b = 0 ∨ Real.log (a / b) ≤ 0) :
    calculate_lifetime delta_t (some a) (some b) = none := by
  unfold calculate_lifetime
  by_cases hb : b = 0
  · rw [rz_some a, rz_some b, if_pos hb, nd_none_right, nl_none, rz_none,
      rn_none]
    rfl
  · by_cases ha : a = 0
    · rw [rz_some, rz_some, if_pos ha, if_neg hb, nd_none_left, nl_none,
        rz_none, rn_none]
      rfl
    · have hlog : Real.log (a / b) ≤ 0 := by
        rcases h with h | h | h
        · exact absurd h hb
        · rcases div_eq_zero_iff.mp h with h0 | h0
          · exact absurd h0 ha
          · exact absurd h0 hb
        · exact h
      rw [rz_some, rz_some, if_neg ha, if_neg hb, nd_some, nl_some]
      by_cases hneg : a / b < 0
      · rw [if_pos hneg, rz_none, rn_none]
        rfl
      · rw [if_neg hneg, rz_some]
        by_cases hz : Real.log (a / b) = 0
        · rw [if_pos hz, rn_none]
          rfl
        · rw [if_neg hz, rn_some, if_pos (lt_of_le_of_ne hlog hz)]
          rfl

/-! ## C2: degenerate pixels yield the NaN sentinel, locally -/

/-- C2: at every pixel where the dark-subtracted window-2 average is
zero, or the ratio is zero, or the log-ratio is non-positive, the output
is the NaN "no data" sentinel (`none`) — never an infinity (division
only ever happens after zeroes were replaced) and never a negative
finite lifetime — and the map is computed pixelwise, so such pixels
never raise an error or change the result at any other pixel. -/
theorem c2_degenerate_pixels_to_nan :
    (∀ (delta_t a b : ℝ), (b = 0 ∨ a / b = 0 ∨ Real.log (a / b) ≤ 0) →
      calculate_lifetime delta_t (some a) (some b) = none) ∧
    (∀ (p : ImagingParameters) (s t : ImageStacks) (i : ℕ),
      s.window1.map (fun img => img i) = t.window1.map (fun img => img i) →
      s.window2.map (fun img => img i) = t.window2.map (fun img => img i) →
      s.dark.map (fun img => img i) = t.dark.map (fun img => img i) →
      calculate_average_lifetime p s i = calculate_average_lifetime p t i) := by
  constructor
  · exact calculate_lifetime_degenerate
  · intro p s t i h1 h2 h3
    have len1 : s.window1.length = t.window1.length := by
      have := congrArg List.length h1
      simpa using this
    have len2 : s.window2.length = t.window2.length := by
      have := congrArg List.length h2
      simpa using this
    have len3 : s.dark.length = t.dark.length := by
      have := congrArg List.length h3
      simpa using this
    have e1 : np_average s.window1 i = np_average t.window1 i := by
      unfold np_average
      rw [len1, h1]
    have e2 : np_average s.window2 i = np_average t.window2 i := by
      unfold np_average
      rw [len2, h2]
    have e3 : np_average s.dark i = np_average t.dark i := by
      unfold np_average
      rw [len3, h3]
    unfold calculate_average_lifetime
    rw [e1, e2, e3]

theorem c2_degenerate_pixels_to_nan_witness :
    calculate_lifetime 20 (some 50) (some 0) = none ∧
    calculate_average_lifetime defaultParams emptyStacks 0
      = calculate_average_lifetime defaultParams emptyStacks 0 :=
  ⟨c2_degenerate_pixels_to_nan.1 20 50 0 (Or.inl rfl),
   c2_degenerate_pixels_to_nan.2 defaultParams emptyStacks emptyStacks 0
     rfl rfl rfl⟩

/-! ## C1: sign convention of the positive-lifetime region -/

/-- C1, counterexample: with the default parameters
(`delay_window1_us = 2.5 < delay_window2_us = 22.5`, so
`delta_t = 20 > 0`) and well-formed one-frame stacks whose
dark-subtracted averages at pixel 0 satisfy
`0 < window1 = 1 < window2 = 2`, the computation yields the NaN
sentinel, not a finite positive lifetime: the ratio is `1/2 < 1`, its
log is negative, and the negative-replacement stage maps it to NaN. -/
theorem c1_counterexample :
    defaultParams.delay_window1_us < defaultParams.delay_window2_us ∧
    (0 : ℝ) < 1 ∧ (1 : ℝ) < 2 ∧
    calculate_average_lifetime defaultParams invertedStacks 0 = none := by
  refine ⟨by decide, by norm_num, by norm_num, ?_⟩
  have hw1 : np_average invertedStacks.window1 0 = some 1 := by
    simp [invertedStacks, np_average]
  have hw2 : np_average invertedStacks.window2 0 = some 2 := by
    simp [invertedStacks, np_average]
  have hdk : np_average invertedStacks.dark 0 = some 0 := by
    simp [invertedStacks, np_average]
  unfold calculate_average_lifetime
  rw [hw1, hw2, hdk]
  show calculate_lifetime
      ((defaultParams.delay_window2_us - defaultParams.delay_window1_us : ℚ) : ℝ)
      (nan_sub (some 1) (some 0)) (nan_sub (some 2) (some 0)) = none
  have hs1 : nan_sub (some (1 : ℝ)) (some 0) = some 1 := by
    show some ((1 : ℝ) - 0) = some 1
    norm_num
  have hs2 : nan_sub (some (2 : ℝ)) (some 0) = some 2 := by
    show some ((2 : ℝ) - 0) = some 2
    norm_num
  rw [hs1, hs2]
  have hlog : Real.log ((1 : ℝ) / 2) < 0 :=
    Real.log_neg (by norm_num) (by norm_num)
  unfold calculate_lifetime
  rw [rz_some, rz_some, if_neg (by norm_num : (1 : ℝ) ≠ 0),
    if_neg (by norm_num : (2 : ℝ) ≠ 0), nd_some, nl_some,
    if_neg (by norm_num : ¬((1 : ℝ) / 2 < 0)), rz_some,
    if_neg (ne_of_lt hlog), rn_some, if_pos hlog]
  rfl

/-- C1, amended: for every parameter set with
`delay_window1_us < delay_window2_us` and every stack, at each pixel
where the dark-subtracted window averages are defined and satisfy
`0 < window2 < window1` (the physically decaying orientation — the
earlier gate is brighter), the computation returns a finite positive
lifetime `delta_t / ln(window1/window2)`. -/
theorem c1_positive_lifetime_amended (p : ImagingParameters)
    (s : ImageStacks) (i : ℕ) (a b : ℝ)
    (hd : p.delay_window1_us < p.delay_window2_us)
    (h1 : nan_sub (np_average s.window1 i) (np_average s.dark i) = some a)
    (h2 : nan_sub (np_average s.window2 i) (np_average s.dark i) = some b)
    (hb : 0 < b) (hba : b < a) :
    ∃ τ : ℝ, calculate_average_lifetime p s i = some τ ∧ 0 < τ := by
  have hdelta : (0 : ℝ) < ((p.delay_window2_us - p.delay_window1_us : ℚ) : ℝ) := by
    have : (0 : ℚ) < p.delay_window2_us - p.delay_window1_us := sub_pos.mpr hd
    exact_mod_cast this
  have hlog : 0 < Real.log (a / b) := Real.log_pos ((one_lt_div hb).mpr hba)
  refine ⟨((p.delay_window2_us - p.delay_window1_us : ℚ) : ℝ) / Real.log (a / b),
    ?_, div_pos hdelta hlog⟩
  unfold calculate_average_lifetime
  show calculate_lifetime ((p.delay_window2_us - p.delay_window1_us : ℚ) : ℝ)
      (nan_sub (np_average s.window1 i) (np_average s.dark i))
      (nan_sub (np_average s.window2 i) (np_average s.dark i))
      = some (((p.delay_window2_us - p.delay_window1_us : ℚ) : ℝ) / Real.log (a / b))
  rw [h1, h2, calculate_lifetime_pos _ a b hb hba]

theorem c1_positive_lifetime_amended_witness :
    ∃ τ : ℝ, calculate_average_lifetime defaultParams decayStacks 0 = some τ ∧
      0 < τ := by
  refine c1_positive_lifetime_amended defaultParams decayStacks 0 2 1
    (by decide) ?_ ?_ (by norm_num) (by norm_num)
  · have hw1 : np_average decayStacks.window1 0 = some 2 := by
      simp [decayStacks, np_average]
    have hdk : np_average decayStacks.dark 0 = some 0 := by
      simp [decayStacks, np_average]
    rw [hw1, hdk]
    show some ((2 : ℝ) - 0) = some 2
    norm_num
  · have hw2 : np_average decayStacks.window2 0 = some 1 := by
      simp [decayStacks, np_average]
    have hdk : np_average decayStacks.dark 0 = some 0 := by
      simp [decayStacks, np_average]
    rw [hw2, hdk]
    show some ((1 : ℝ) - 0) = some 1
    norm_num

/-! ## C4: the all-empty stack -/

/-- C4 (code bug): invoked on a stack with all three windows empty, the
reduction does not fail with any `EmptyStack` error — no such outcome
exists anywhere in the code — nor with a division or logarithm error:
`np.average` of an empty stack is NaN (with only a runtime warning), the
NaN propagates through the whole pipeline, and the computation completes
silently with the NaN "no data" sentinel at every pixel. -/
theorem c4_empty_stack_behavior (p : ImagingParameters) (i : ℕ) :
    calculate_average_lifetime p emptyStacks i = none := by
  have he : np_average ([] : List (ℕ → ℝ)) i = none := by
    simp [np_average]
  unfold calculate_average_lifetime
  show calculate_lifetime _
    (nan_sub (np_average emptyStacks.window1 i) (np_average emptyStacks.dark i))
    (nan_sub (np_average emptyStacks.window2 i) (np_average emptyStacks.dark i))
      = none
  rw [show emptyStacks.window1 = ([] : List (ℕ → ℝ)) from rfl,
    show emptyStacks.window2 = ([] : List (ℕ → ℝ)) from rfl,
    show emptyStacks.dark = ([] : List (ℕ → ℝ)) from rfl, he]
  show calculate_lifetime _ none none = none
  unfold calculate_lifetime
  rw [rz_none, nd_none_left, nl_none, rz_none, rn_none]
  rfl
